import Mathlib

/-!
Verification of the SIR traffic-congestion notebook.

The model functions are shallowly embedded over the rationals.  Python
raises ZeroDivisionError when a denominator is exactly zero, so every
function whose body divides returns an Option, with none exactly at the
states where the Python code raises.
-/

namespace SIRModel

set_option linter.unusedVariables false

set_option linter.unnecessarySeqFocus false

/-- Disease-SIR derivative function, embedded from the nested function
deriv inside plot_simple_SIR (cell-3).  State y is unpacked as
(S, I, R); the returned triple is (dSdt, dIdt, dRdt). -/
def deriv (y : ℚ × ℚ × ℚ) (t : ℚ) (N beta gamma : ℚ) : ℚ × ℚ × ℚ :=
  let S := y.1
  let I := y.2.1
  let dSdt := -beta * S * I / N
  let dIdt := beta * S * I / N - gamma * I
  let dRdt := gamma * I
  (dSdt, dIdt, dRdt)

/-- Older Traffic-SIR derivative function, embedded from the nested
function deriv_traffic inside the first plot_traffic_SIR (cell-11).
State y is unpacked as (f, c, r); the returned triple is, in source
order, (dcdt, drdt, dfdt). -/
def deriv_traffic_v1 (y : ℚ × ℚ × ℚ) (t : ℚ) (N beta miu k : ℚ) : ℚ × ℚ × ℚ :=
  let c := y.2.1
  let r := y.2.2
  let dcdt := -miu * c + beta * k * c * (1 - r - c)
  let drdt := miu * c
  let dfdt := -beta * k * c * (1 - r - c)
  (dcdt, drdt, dfdt)

/-- Later (canonical) Traffic-SIR derivative function, embedded from the
nested function deriv_traffic inside the second plot_traffic_SIR
(cell-13).  State y is unpacked as (F, C, R), fractions are
frac_C = C / N and frac_R = R / N, and the returned triple is, in
source order, (dCdt, dRdt, dFdt). -/
def deriv_traffic_v2 (y : ℚ × ℚ × ℚ) (t : ℚ) (N beta miu k : ℚ) : ℚ × ℚ × ℚ :=
  let C := y.2.1
  let R := y.2.2
  let frac_C := C / N
  let frac_R := R / N
  let dFdt := -beta * k * C * (1 - frac_R - frac_C)
  let dCdt := -miu * C + beta * k * C * (1 - frac_R - frac_C)
  let dRdt := miu * C
  (dCdt, dRdt, dFdt)

/-- Congestion classifier, embedded from congested (cell-8).  The body
is the single comparison (v_t / v_max) < rho; Python raises
ZeroDivisionError exactly when v_max = 0, hence none there. -/
def congested (v_t v_max rho : ℚ) : Option Bool :=
  if v_max = 0 then none
  else some (decide (v_t / v_max < rho))

/-- Propagation timer, embedded from propagation_time (cell-9):
critical density k_c = q_c / v_f, shockwave speed
omega = q_c / (k_j - k_c), result eta = l / omega.  Python raises
ZeroDivisionError exactly when v_f = 0, when k_j - k_c = 0, or when
omega = 0, hence none there. -/
def propagation_time (l q_c v_f k_j : ℚ) : Option ℚ :=
  if v_f = 0 then none
  else
    let k_c := q_c / v_f
    if k_j - k_c = 0 then none
    else
      let omega := q_c / (k_j - k_c)
      if omega = 0 then none
      else some (l / omega)

/-- Congested-links derivative, embedded from deriv_congested_links
(cell-10): eta = propagation_time l (q at index t) v_f k_j, result
1 / eta.  An out-of-range index t raises in Python, as does 1 / 0 when
eta = 0, hence none there. -/
def deriv_congested_links (l : ℚ) (q : List ℚ) (v_f k_j : ℚ) (t : ℕ) : Option ℚ :=
  match q[t]? with
  | none => none
  | some qt =>
    match propagation_time l qt v_f k_j with
    | none => none
    | some eta => if eta = 0 then none else some (1 / eta)

/-- Helper: propagation_time written as plain nested ifs, with the let
bindings k_c and omega inlined. -/
theorem propagation_time_eq (l q_c v_f k_j : ℚ) :
    propagation_time l q_c v_f k_j =
      if v_f = 0 then none
      else if k_j - q_c / v_f = 0 then none
      else if q_c / (k_j - q_c / v_f) = 0 then none
      else some (l / (q_c / (k_j - q_c / v_f))) := rfl

/-- Claim C2: for every state (S, I, R), every time t, and all
parameters beta, gamma and N with N nonzero, the Disease-SIR derivative
function returns exactly the triple
(-beta*S*I/N, beta*S*I/N - gamma*I, gamma*I), componentwise aligned
with the state ordering (S, I, R) used for the initial vector. -/
theorem c2_disease_deriv_components (S I R t beta gamma N : ℚ) (hN : N ≠ 0) :
    deriv (S, I, R) t N beta gamma =
      (-beta * S * I / N, beta * S * I / N - gamma * I, gamma * I) := rfl

/-- Witness for C2 at the concrete initial state of the notebook. -/
theorem c2_witness :
    deriv (999, 1, 0) 0 1000 (1/5) (1/10) =
      (-(1/5) * 999 * 1 / 1000, (1/5) * 999 * 1 / 1000 - (1/10) * 1, (1/10) * 1) :=
  c2_disease_deriv_components 999 1 0 0 (1/5) (1/10) 1000 (by norm_num)

/-- Claim C3: for every state, time, and parameters with N nonzero, the
three components returned by the Disease-SIR derivative sum to exactly
zero, and the three components returned by the canonical Traffic-SIR
derivative also sum to exactly zero. -/
theorem c3_conservation (y : ℚ × ℚ × ℚ) (t N beta gamma miu k : ℚ) (hN : N ≠ 0) :
    (deriv y t N beta gamma).1 + (deriv y t N beta gamma).2.1 +
      (deriv y t N beta gamma).2.2 = 0 ∧
    (deriv_traffic_v2 y t N beta miu k).1 + (deriv_traffic_v2 y t N beta miu k).2.1 +
      (deriv_traffic_v2 y t N beta miu k).2.2 = 0 := by
  constructor <;> simp [deriv, deriv_traffic_v2] <;> ring

/-- Witness for C3 at a concrete state and concrete parameters. -/
theorem c3_witness :
    (deriv (999, 1, 0) 0 1000 (1/5) (1/10)).1 +
      (deriv (999, 1, 0) 0 1000 (1/5) (1/10)).2.1 +
      (deriv (999, 1, 0) 0 1000 (1/5) (1/10)).2.2 = 0 ∧
    (deriv_traffic_v2 (999, 1, 0) 0 1000 (1/5) (1/10) 1).1 +
      (deriv_traffic_v2 (999, 1, 0) 0 1000 (1/5) (1/10) 1).2.1 +
      (deriv_traffic_v2 (999, 1, 0) 0 1000 (1/5) (1/10) 1).2.2 = 0 :=
  c3_conservation (999, 1, 0) 0 1000 (1/5) (1/10) (1/10) 1 (by norm_num)

/-- Claim C8: if the infected (resp. congested) compartment is zero the
derivative function returns the zero vector: the Disease-SIR derivative
at state (S, 0, R) is (0, 0, 0) and the canonical Traffic-SIR
derivative at C = 0 is likewise identically zero, so the initial state
is an equilibrium of the exact ODE. -/
theorem c8_zero_compartment_equilibrium (S R F R2 t N beta gamma miu k : ℚ) :
    deriv (S, 0, R) t N beta gamma = (0, 0, 0) ∧
    deriv_traffic_v2 (F, 0, R2) t N beta miu k = (0, 0, 0) := by
  constructor <;> simp [deriv, deriv_traffic_v2]

/-- Claim C1 (failing-input evaluation): at the count state
(F, C, R) = (999, 1, 0) with N = 1000, beta = 1/5, miu = 1/10, k = 1,
the canonical Traffic-SIR derivative returns the triple
(dCdt, dRdt, dFdt) = (499/5000, 1/10, -999/5000), so the first (F-slot)
component is dC/dt rather than the stated
dF/dt = -beta*k*C*(1 - r - c) = -999/5000. -/
theorem c1_return_order_misaligned :
    deriv_traffic_v2 (999, 1, 0) 0 1000 (1/5) (1/10) 1 =
      (499/5000, 1/10, -(999/5000)) ∧
    (deriv_traffic_v2 (999, 1, 0) 0 1000 (1/5) (1/10) 1).1 ≠
      -(1/5) * 1 * 1 * (1 - 0/1000 - 1/1000) := by
  constructor
  · norm_num [deriv_traffic_v2]
  · norm_num [deriv_traffic_v2]

/-- Claim C7: the older Traffic-SIR derivative treats all terms in the
units of the raw state (it never divides by N, so it is independent of
N), while the later one divides the state by N; the two derivative
functions disagree on the count-valued state (999, 1, 0) with N = 1000,
beta = 1/5, miu = 1/10, k = 1, hence are not equal as functions of the
count-valued state. -/
theorem c7_two_divergent_formulations :
    (∀ y t N M beta miu k, deriv_traffic_v1 y t N beta miu k =
        deriv_traffic_v1 y t M beta miu k) ∧
    deriv_traffic_v1 (999, 1, 0) 0 1000 (1/5) (1/10) 1 ≠
      deriv_traffic_v2 (999, 1, 0) 0 1000 (1/5) (1/10) 1 := by
  refine ⟨fun y t N M beta miu k => rfl, ?_⟩
  norm_num [deriv_traffic_v1, deriv_traffic_v2]

/-- Counterexample to claim C4: at v_t = 20, v_max = -60, rho = 1/2 the
classifier has v_max ≤ 0 yet returns the boolean true instead of
raising, because the source performs no sign check and only an exact
zero denominator raises in Python. -/
theorem c4_counterexample :
    (-60 : ℚ) ≤ 0 ∧ congested 20 (-60) (1/2) = some true := by
  norm_num [congested]

/-- Claim C4 (amended): the classifier fails to return a boolean exactly
when v_max = 0, and the propagation timer fails to return a number
exactly when v_f = 0, k_j = q_c / v_f, or q_c = 0; for v_max < 0 the
classifier returns a boolean and for k_j < k_c with k_j distinct from
k_c and q_c nonzero the timer returns a number. -/
theorem c4_error_conditions (v_t v_max rho l q_c v_f k_j : ℚ) :
    (congested v_t v_max rho = none ↔ v_max = 0) ∧
    (propagation_time l q_c v_f k_j = none ↔
      (v_f = 0 ∨ k_j = q_c / v_f ∨ q_c = 0)) := by
  constructor
  · unfold congested
    split_ifs with h <;> simp [h]
  · rw [propagation_time_eq]
    split_ifs with h1 h2 h3
    · simp [h1]
    · simp [sub_eq_zero.mp h2]
    · have hq : q_c = 0 := by
        rcases div_eq_zero_iff.mp h3 with h | h
        · exact h
        · exact absurd h h2
      simp [hq]
    · refine ⟨fun h => absurd h (by simp), ?_⟩
      rintro (h | h | h)
      · exact absurd h h1
      · exact absurd (sub_eq_zero.mpr h) h2
      · subst h
        exact absurd (zero_div _) h3

/-- Counterexample to claim C5: at l = 500, q_c = 0, v_f = 60,
k_j = 180 the hypotheses v_f nonzero and k_j distinct from q_c / v_f
hold, yet the timer raises (shockwave speed omega = 0, so eta = l / 0)
instead of returning a value. -/
theorem c5_counterexample :
    (60 : ℚ) ≠ 0 ∧ (180 : ℚ) ≠ 0 / 60 ∧
    propagation_time 500 0 60 180 ≠ some (500 / (0 / (180 - 0 / 60))) := by
  rw [propagation_time_eq]
  refine ⟨by norm_num, by norm_num, ?_⟩
  norm_num
  exact fun h => Option.noConfusion h

/-- Claim C5 (amended): for every l, and q_c, v_f nonzero, and k_j
distinct from q_c / v_f, the timer returns
l / (q_c / (k_j - q_c / v_f)), i.e. eta = l / omega with
omega = q_c / (k_j - k_c) and k_c = q_c / v_f; in particular at
l = 500, q_c = 1800, v_f = 60, k_j = 180 it returns 500 / 12. -/
theorem c5_propagation_formula (l q_c v_f k_j : ℚ)
    (hv : v_f ≠ 0) (hq : q_c ≠ 0) (hk : k_j ≠ q_c / v_f) :
    propagation_time l q_c v_f k_j = some (l / (q_c / (k_j - q_c / v_f))) ∧
    propagation_time 500 1800 60 180 = some (500 / 12) := by
  constructor
  · have h2 : ¬(k_j - q_c / v_f = 0) := fun h => hk (sub_eq_zero.mp h)
    have h3 : ¬(q_c / (k_j - q_c / v_f) = 0) := by
      intro h
      rcases div_eq_zero_iff.mp h with h | h
      · exact hq h
      · exact h2 h
    unfold propagation_time
    simp [hv, h2, h3]
  · norm_num [propagation_time]

/-- Witness for C5 at the concrete scenario of the specification. -/
theorem c5_witness :
    propagation_time 500 1800 60 180 = some (500 / (1800 / (180 - 1800 / 60))) ∧
    propagation_time 500 1800 60 180 = some (500 / 12) :=
  ⟨(c5_propagation_formula 500 1800 60 180 (by norm_num) (by norm_num) (by norm_num)).1,
   (c5_propagation_formula 500 1800 60 180 (by norm_num) (by norm_num) (by norm_num)).2⟩

/-- Claim C6: for every v_t, every v_max > 0, and every rho, the
classifier returns true exactly when v_t / v_max < rho; in particular
it returns true at (20, 60, 1/2), and at v_t = 0 it returns true for
every rho > 0. -/
theorem c6_congested_iff (v_t v_max rho : ℚ) (hpos : 0 < v_max) :
    (congested v_t v_max rho = some true ↔ v_t / v_max < rho) ∧
    congested 20 60 (1/2) = some true ∧
    (0 < rho → congested 0 v_max rho = some true) := by
  have hne : v_max ≠ 0 := ne_of_gt hpos
  refine ⟨by simp [congested, hne], by norm_num [congested], fun hrho => ?_⟩
  simp [congested, hne, hrho]

/-- Witness for C6 at the concrete scenario of the specification. -/
theorem c6_witness :
    (congested 20 60 (1/2) = some true ↔ (20 : ℚ) / 60 < 1/2) ∧
    congested 20 60 (1/2) = some true ∧
    ((0 : ℚ) < 1/2 → congested 0 60 (1/2) = some true) :=
  c6_congested_iff 20 60 (1/2) (by norm_num)

/-- Counterexample to claim C9: at l = 0, q_c = 1800, v_f = 60,
k_j = 180 the stated preconditions v_f > 0 and k_j > k_c hold, yet the
timer returns 0, which is not strictly positive. -/
theorem c9_counterexample :
    (0 : ℚ) < 60 ∧ (1800 : ℚ) / 60 < 180 ∧
    propagation_time 0 1800 60 180 = some 0 ∧ ¬(0 : ℚ) < 0 := by
  norm_num [propagation_time]

/-- Claim C9 (amended): under v_f > 0 and k_j > k_c with k_c = q_c / v_f,
the timer returns a strictly positive value for every l > 0 and
q_c > 0. -/
theorem c9_positive_propagation (l q_c v_f k_j : ℚ)
    (hl : 0 < l) (hq : 0 < q_c) (hv : 0 < v_f) (hk : q_c / v_f < k_j) :
    ∃ eta, propagation_time l q_c v_f k_j = some eta ∧ 0 < eta := by
  have hden : 0 < k_j - q_c / v_f := sub_pos.mpr hk
  have homega : 0 < q_c / (k_j - q_c / v_f) := div_pos hq hden
  refine ⟨l / (q_c / (k_j - q_c / v_f)), ?_, div_pos hl homega⟩
  unfold propagation_time
  simp [ne_of_gt hv, ne_of_gt hden, ne_of_gt homega]

/-- Witness for C9 at the concrete scenario of the specification. -/
theorem c9_witness :
    ∃ eta, propagation_time 500 1800 60 180 = some eta ∧ 0 < eta :=
  c9_positive_propagation 500 1800 60 180 (by norm_num) (by norm_num)
    (by norm_num) (by norm_num)

/-- Claim C10: whenever the flow sequence has an entry qt at index t and
the propagation time for it is defined and nonzero, the congested-links
derivative equals its reciprocal, which is
qt / (l * (k_j - qt / v_f)). -/
theorem c10_deriv_congested_links_inverse (l v_f k_j : ℚ) (q : List ℚ) (t : ℕ)
    (qt eta : ℚ) (hq : q[t]? = some qt)
    (heta : propagation_time l qt v_f k_j = some eta) (hne : eta ≠ 0) :
    deriv_congested_links l q v_f k_j t = some (qt / (l * (k_j - qt / v_f))) := by
  have heta0 := heta
  rw [propagation_time_eq] at heta
  split_ifs at heta with h1 h2 h3
  have heq : l / (qt / (k_j - qt / v_f)) = eta := by simpa using heta
  simp only [deriv_congested_links, hq, heta0, if_neg hne]
  congr 1
  rw [← heq, one_div_div, div_div, mul_comm]

/-- Witness for C10 on the one-element flow sequence of the propagation
scenario. -/
theorem c10_witness :
    deriv_congested_links 500 [1800] 60 180 0 =
      some (1800 / (500 * (180 - 1800 / 60))) :=
  c10_deriv_congested_links_inverse 500 60 180 [1800] 0 1800 (500 / 12) rfl
    (by norm_num [propagation_time]) (by norm_num)

end SIRModel
